import Mathlib

/-!
Shallow embedding of the scheduling and actuation core of
`src/main/plant_water.c` (weskerfoot/fan_controller).

Modelling conventions:
- C `int` fields become `Int`.
- The `event_type` enum values `PUMP_ON = 1` and `PUMP_OFF = 2` are plain
  `Int` constants, since `struct event_t message = {0}` can also leave an
  event field holding `0` (neither enum value), exactly as in the C source.
- FreeRTOS bounded queues become lists with an explicit capacity: a send
  with zero timeout appends when there is room and silently drops otherwise.
- Wall-clock time is the relevant subset of `struct tm`: year, month,
  day-of-month, hour, minute. The evaluator callback reads only
  `tm_mday`, `tm_hour` and `tm_min`, mirroring `pumpTimerCb`.
- `portTICK_PERIOD_MS` comes from the FreeRTOS configuration, which is not
  part of the repository; it is threaded through as an explicit parameter
  `p` wherever `make_delay` is involved.
- cJSON values are modelled by an inductive `Json` type whose numbers are
  integers (the code only ever reads `valueint`).
-/

namespace PlantWater

/-- `MAX_CRON_SPECS` from `plant_water.c`: capacity of the cron store. -/
def MAX_CRON_SPECS : Nat := 5

/-- `PUMP_ON` member of the C `event_type` enum. -/
def PUMP_ON : Int := 1

/-- `PUMP_OFF` member of the C `event_type` enum. -/
def PUMP_OFF : Int := 2

/-- `struct event_t`: one actuation request carried on the pump-events queue. -/
structure event_t where
  pump_1 : Int
  pump_2 : Int
  pump_delay : Int
deriving DecidableEq, Repr

/-- `struct cron_t`: one schedule entry. -/
structure cron_t where
  pump_num : Int
  state : Int
  pump_on_time : Int
  hour : Int
  minute : Int
  last_ran_day : Int
  last_ran_minute : Int
  last_ran_hour : Int
deriving DecidableEq, Repr

/-- The all-zero `struct cron_t`, i.e. `{0}` in C. -/
def zeroCron : cron_t := ⟨0, 0, 0, 0, 0, 0, 0, 0⟩

/-- The fields of `struct tm` relevant to this program (the callback reads
only `tm_mday`, `tm_hour`, `tm_min`; year and month are carried so that the
full calendar date of a tick is expressible). -/
structure Tm where
  tm_year : Int
  tm_mon : Int
  tm_mday : Int
  tm_hour : Int
  tm_min : Int
deriving DecidableEq, Repr

/-- The calendar day (full date) of a `Tm` value. -/
def Tm.calendarDay (t : Tm) : Int × Int × Int := (t.tm_year, t.tm_mon, t.tm_mday)

/-- Hardware output state: whether each LEDC pump channel is driven with a
nonzero duty cycle. -/
structure PumpHw where
  pump0 : Bool
  pump1 : Bool
deriving DecidableEq, Repr

/-- `set_pump(pump_num, state)`: duty is `LEDC_DUTY` when `state == 1`,
else `0`; channels other than 0 and 1 are never used by the program. -/
def set_pump (pump_num state : Int) (s : PumpHw) : PumpHw :=
  if pump_num = 0 then { s with pump0 := state == 1 }
  else if pump_num = 1 then { s with pump1 := state == 1 }
  else s

/-- `pump_one_on()`: `set_pump(0,1); set_pump(1,0);`. -/
def pump_one_on (s : PumpHw) : PumpHw := set_pump 1 0 (set_pump 0 1 s)

/-- `pump_two_on()`: `set_pump(0,0); set_pump(1,1);`. -/
def pump_two_on (s : PumpHw) : PumpHw := set_pump 1 1 (set_pump 0 0 s)

/-- `pumps_off()`: `set_pump(0,0); set_pump(1,0);`. -/
def pumps_off (s : PumpHw) : PumpHw := set_pump 1 0 (set_pump 0 0 s)

/-- `make_delay(seconds)`: `(1000*seconds) / portTICK_PERIOD_MS`.
`p` is `portTICK_PERIOD_MS`, a FreeRTOS configuration constant outside the
repository. -/
def make_delay (p seconds : Int) : Int := (1000 * seconds) / p

/-- `xQueueSend(handle, &msg, 0)` on a bounded FreeRTOS queue of capacity
`cap`: append when there is room, otherwise drop silently. -/
def xQueueSend (cap : Nat) (q : List event_t) (m : event_t) : List event_t :=
  if q.length < cap then q ++ [m] else q

/-- Same bounded-send semantics for the cron-entry (timer events) queue. -/
def xQueueSendCron (cap : Nat) (q : List cron_t) (m : cron_t) : List cron_t :=
  if q.length < cap then q ++ [m] else q

/-- Body of the `while (1)` loop of `pumpRunnerTaskFunction` after a message
is received: drive the outputs commanded by the message (before the hold
delay). -/
def driveOutputs (m : event_t) (s : PumpHw) : PumpHw :=
  let s1 := if m.pump_1 == PUMP_ON then pump_one_on s else s
  if m.pump_2 == PUMP_ON then pump_two_on s1 else s1

/-- One full service of a received message in `pumpRunnerTaskFunction`:
drive the commanded states, hold for `pump_delay`, then `pumps_off()`. -/
def pumpRunnerStep (m : event_t) (s : PumpHw) : PumpHw :=
  pumps_off (driveOutputs m s)

/-- `runPumps(delay1, delay2)`: send `{PUMP_ON, PUMP_OFF, make_delay d1}`
then `{PUMP_OFF, PUMP_ON, make_delay d2}` on the pump-events queue, each
with zero timeout. -/
def runPumps (cap : Nat) (p delay1 delay2 : Int) (q : List event_t) : List event_t :=
  let q1 := xQueueSend cap q ⟨PUMP_ON, PUMP_OFF, make_delay p delay1⟩
  xQueueSend cap q1 ⟨PUMP_OFF, PUMP_ON, make_delay p delay2⟩

/-- Evaluator state: the `cron_specs` array together with the static
`next_cron_spec` cursor of `pumpTimerCb`. -/
structure EvalState where
  cron_specs : List cron_t
  next_cron_spec : Nat
deriving DecidableEq, Repr

/-- The state at program start: `cron_specs` is a zero-initialized static
array and `next_cron_spec` starts at 0. -/
def initialEvalState : EvalState :=
  ⟨List.replicate MAX_CRON_SPECS zeroCron, 0⟩

/-- The insert step inside `pumpTimerCb` once a cron spec is received:
`cron_specs[next_cron_spec] = spec; next_cron_spec = (next_cron_spec + 1) % MAX_CRON_SPECS;`. -/
def insertCron (st : EvalState) (c : cron_t) : EvalState :=
  ⟨st.cron_specs.set st.next_cron_spec c,
   (st.next_cron_spec + 1) % MAX_CRON_SPECS⟩

/-- The message built for a matching entry in `pumpTimerCb`:
`struct event_t message = {0};` then a `switch` on `pump_num` with cases 0
and 1 (and no default), then `message.pump_delay = make_delay(pump_on_time)`. -/
def mkMsg (p : Int) (c : cron_t) : event_t :=
  let base : event_t := ⟨0, 0, 0⟩
  let m1 :=
    match c.pump_num with
    | 0 => { base with pump_1 := PUMP_ON, pump_2 := PUMP_OFF }
    | 1 => { base with pump_2 := PUMP_ON, pump_1 := PUMP_OFF }
    | _ => base
  { m1 with pump_delay := make_delay p c.pump_on_time }

/-- One iteration of the scan loop in `pumpTimerCb` for a single slot:
if the current hour and minute equal the entry's, and the entry's
`last_ran_day` is not today's `tm_mday`, produce the message and record the
fire time; otherwise leave the entry alone and produce nothing. -/
def fireOne (p : Int) (now : Tm) (c : cron_t) : cron_t × Option event_t :=
  if now.tm_hour = c.hour ∧ now.tm_min = c.minute then
    if c.last_ran_day = now.tm_mday then (c, none)
    else
      ({ c with last_ran_day := now.tm_mday,
                last_ran_hour := now.tm_hour,
                last_ran_minute := now.tm_min },
       some (mkMsg p c))
  else (c, none)

/-- The whole scan loop of `pumpTimerCb`: visit the slots in index order,
sending each matching slot's message on the pump-events queue (capacity
`cap`) and updating each fired slot's last-ran fields. Returns the updated
slots and the queue after the sends. -/
def scanQ (cap : Nat) (p : Int) (now : Tm) :
    List cron_t → List event_t → List cron_t × List event_t
  | [], q => ([], q)
  | c :: rest, q =>
    let fr := fireOne p now c
    let q1 := match fr.2 with
      | none => q
      | some m => xQueueSend cap q m
    let r := scanQ cap p now rest q1
    (fr.1 :: r.1, r.2)

/-- The messages the scan loop of a tick attempts to send, one per matching
slot, in slot order. -/
def sentMsgs (p : Int) (now : Tm) (specs : List cron_t) : List event_t :=
  specs.filterMap fun c => (fireOne p now c).2

/-- `pumpTimerCb`: one evaluator tick. `us` is the pending content of the
timer-events (schedule-update) queue, `q` the pump-events queue. First a
single zero-timeout receive from `us` (inserting the received spec, if any),
then the scan loop. Returns the new evaluator state, the remaining
schedule updates, and the pump-events queue after the tick's sends. -/
def pumpTimerCb (cap : Nat) (p : Int) (now : Tm) (st : EvalState)
    (us : List cron_t) (q : List event_t) :
    EvalState × List cron_t × List event_t :=
  let (st1, rest) :=
    match us with
    | [] => (st, ([] : List cron_t))
    | u :: r => (insertCron st u, r)
  let (specs2, q2) := scanQ cap p now st1.cron_specs q
  (⟨specs2, st1.next_cron_spec⟩, rest, q2)

/-- cJSON values as read by this program. Numbers are integers because the
code only reads `valueint`. -/
inductive Json where
  | null : Json
  | jbool : Bool → Json
  | num : Int → Json
  | str : String → Json
  | arr : List Json → Json
  | obj : List (String × Json) → Json

/-- `cJSON_GetObjectItemCaseSensitive`: first child with the given key, or
NULL (`none`). -/
def cJSON_GetObjectItemCaseSensitive :
    List (String × Json) → String → Option Json
  | [], _ => none
  | (k, v) :: rest, key =>
    if k == key then some v else cJSON_GetObjectItemCaseSensitive rest key

/-- `cJSON_IsNumber(item)`: false on NULL, true exactly on number nodes. -/
def cJSON_IsNumber : Option Json → Bool
  | some (Json.num _) => true
  | _ => false

/-- `item->valueint` (only ever dereferenced after `cJSON_IsNumber`). -/
def valueint : Option Json → Int
  | some (Json.num n) => n
  | _ => 0

/-- The validation condition of `parse_cron_data`: the value is an object
and all five looked-up fields are numbers. -/
def cronGuard : Json → Bool
  | Json.obj fields =>
    cJSON_IsNumber (cJSON_GetObjectItemCaseSensitive fields "pump_num") &&
    cJSON_IsNumber (cJSON_GetObjectItemCaseSensitive fields "state") &&
    cJSON_IsNumber (cJSON_GetObjectItemCaseSensitive fields "pump_on_time") &&
    cJSON_IsNumber (cJSON_GetObjectItemCaseSensitive fields "hour") &&
    cJSON_IsNumber (cJSON_GetObjectItemCaseSensitive fields "minute")
  | _ => false

/-- `parse_cron_data(json)`: starts from `struct cron_t cron_spec = {0}`;
fills all fields (with `-1` last-ran sentinels) only when the guard holds,
and otherwise returns the zero struct unchanged. -/
def parse_cron_data (j : Json) : cron_t :=
  match j with
  | Json.obj fields =>
    if cronGuard (Json.obj fields) then
      { pump_num := valueint (cJSON_GetObjectItemCaseSensitive fields "pump_num"),
        state := valueint (cJSON_GetObjectItemCaseSensitive fields "state"),
        pump_on_time := valueint (cJSON_GetObjectItemCaseSensitive fields "pump_on_time"),
        hour := valueint (cJSON_GetObjectItemCaseSensitive fields "hour"),
        minute := valueint (cJSON_GetObjectItemCaseSensitive fields "minute"),
        last_ran_day := -1,
        last_ran_minute := -1,
        last_ran_hour := -1 }
    else zeroCron
  | _ => zeroCron

/-- `add_cron_handler` after body receipt, as a function of the result of
`cJSON_ParseWithLength` (`none` = parse returned NULL): when the body
parses at all, `parse_cron_data` runs and its result is sent on the
timer-events queue unconditionally. -/
def add_cron_handler (cap : Nat) (j : Option Json) (uq : List cron_t) :
    List cron_t :=
  match j with
  | none => uq
  | some json => xQueueSendCron cap uq (parse_cron_data json)

/-- `pumps_on_handler` after body receipt, as a function of the parsed body:
`runPumps` runs only when the body is a JSON object whose `pump_1` and
`pump_2` children are numbers with `valueint > 0`. Returns the pump-events
queue after the handler. -/
def pumps_on_handler (cap : Nat) (p : Int) (j : Option Json)
    (q : List event_t) : List event_t :=
  match j with
  | none => q
  | some json =>
    match json with
    | Json.obj fields =>
      let pump_one_time_j := cJSON_GetObjectItemCaseSensitive fields "pump_1"
      let pump_two_time_j := cJSON_GetObjectItemCaseSensitive fields "pump_2"
      if cJSON_IsNumber pump_one_time_j && cJSON_IsNumber pump_two_time_j then
        if valueint pump_one_time_j > 0 && valueint pump_two_time_j > 0 then
          runPumps cap p (valueint pump_one_time_j) (valueint pump_two_time_j) q
        else q
      else q
    | _ => q

/-- Hardware-output states reachable by the program: the initial state has
both duty cycles at 0 (`ledc_init` with `.duty = 0`), and the only writers
of the pump channels are `pump_one_on`, `pump_two_on` and `pumps_off`. -/
inductive PumpReach : PumpHw → Prop
  | init : PumpReach ⟨false, false⟩
  | one {s : PumpHw} : PumpReach s → PumpReach (pump_one_on s)
  | two {s : PumpHw} : PumpReach s → PumpReach (pump_two_on s)
  | off {s : PumpHw} : PumpReach s → PumpReach (pumps_off s)

/-! ## Helper lemmas -/

/-- The slot array a scan produces does not depend on the pump-events queue
or its capacity: it is `fireOne` applied slotwise. -/
theorem scanQ_fst (cap : Nat) (p : Int) (now : Tm) (specs : List cron_t)
    (q : List event_t) :
    (scanQ cap p now specs q).1 = specs.map fun c => (fireOne p now c).1 := by
  induction specs generalizing q with
  | nil => rfl
  | cons c rest ih => simp [scanQ, ih]

/-- When the queue has room for every message of the scan, the scan appends
exactly the matching slots' messages, in slot order. -/
theorem scanQ_snd (cap : Nat) (p : Int) (now : Tm) (specs : List cron_t)
    (q : List event_t)
    (h : q.length + (sentMsgs p now specs).length ≤ cap) :
    (scanQ cap p now specs q).2 = q ++ sentMsgs p now specs := by
  induction specs generalizing q with
  | nil => simp [scanQ, sentMsgs]
  | cons c rest ih =>
    cases hm : (fireOne p now c).2 with
    | none =>
      have hrest : q.length + (sentMsgs p now rest).length ≤ cap := by
        simpa [sentMsgs, List.filterMap_cons, hm] using h
      simp [scanQ, sentMsgs, List.filterMap_cons, hm, ih _ hrest]
    | some m =>
      have hlen : q.length + (1 + (sentMsgs p now rest).length) ≤ cap := by
        simpa [sentMsgs, List.filterMap_cons, hm, Nat.add_comm] using h
      have hq : q.length < cap := by omega
      have hrest : (q ++ [m]).length + (sentMsgs p now rest).length ≤ cap := by
        simp; omega
      simp [scanQ, sentMsgs, List.filterMap_cons, hm, xQueueSend, hq,
        ih _ hrest]

/-! ## Claims -/

/-- Claim C3: after the actuation consumer finishes processing any
RunRequest, both pump outputs are Off — the final `pumps_off()` call in
`pumpRunnerTaskFunction` is unconditional, whatever states the request
commanded. -/
theorem pumpRunnerStep_forced_off (m : event_t) (s : PumpHw) :
    pumpRunnerStep m s = ⟨false, false⟩ := rfl

/-- Claim C4: an immediate-run trigger with durations `d1` and `d2` sends
exactly two RunRequests back-to-back: first pump 1 On / pump 2 Off with the
delay computed from `d1`, then pump 1 Off / pump 2 On with the delay
computed from `d2` (stated when the queue has room for both). -/
theorem runPumps_two_requests (cap : Nat) (p d1 d2 : Int)
    (q : List event_t) (h : q.length + 2 ≤ cap) :
    runPumps cap p d1 d2 q =
      q ++ [⟨PUMP_ON, PUMP_OFF, make_delay p d1⟩,
            ⟨PUMP_OFF, PUMP_ON, make_delay p d2⟩] := by
  have h1 : q.length < cap := by omega
  have h2 : q.length + 1 < cap := by omega
  simp [runPumps, xQueueSend, h1, h2]

/-- Witness for C4 at a concrete input. -/
theorem runPumps_two_requests_witness :
    (([] : List event_t).length + 2 ≤ 5) ∧
    runPumps 5 10 3 4 [] =
      [] ++ [⟨PUMP_ON, PUMP_OFF, make_delay 10 3⟩,
             ⟨PUMP_OFF, PUMP_ON, make_delay 10 4⟩] :=
  ⟨by decide, runPumps_two_requests 5 10 3 4 [] (by decide)⟩

/-- Claim C9: every pump command sets both hardware channels together
(`pump_one_on` gives pump 0 on / pump 1 off, `pump_two_on` the mirror,
`pumps_off` both off), so every reachable hardware state has at most one
pump commanded on; and an event with `PUMP_ON` for both pumps leaves only
pump 1 on, because `pump_two_on` runs after `pump_one_on`. -/
theorem at_most_one_pump_on :
    (∀ s : PumpHw, PumpReach s → (s.pump0 && s.pump1) = false) ∧
    (∀ s : PumpHw, pump_one_on s = ⟨true, false⟩) ∧
    (∀ s : PumpHw, pump_two_on s = ⟨false, true⟩) ∧
    (∀ s : PumpHw, pumps_off s = ⟨false, false⟩) ∧
    (∀ (d : Int) (s : PumpHw),
      driveOutputs ⟨PUMP_ON, PUMP_ON, d⟩ s = ⟨false, true⟩) := by
  refine ⟨?_, fun s => rfl, fun s => rfl, fun s => rfl, fun d s => rfl⟩
  intro s h
  induction h with
  | init => rfl
  | one _ _ => rfl
  | two _ _ => rfl
  | off _ _ => rfl

/-- Witness for C9 at concrete states. -/
theorem at_most_one_pump_on_witness :
    ((⟨false, false⟩ : PumpHw).pump0 && (⟨false, false⟩ : PumpHw).pump1)
      = false ∧
    driveOutputs ⟨PUMP_ON, PUMP_ON, 7⟩ ⟨true, true⟩ = ⟨false, true⟩ :=
  ⟨at_most_one_pump_on.1 ⟨false, false⟩ PumpReach.init,
   at_most_one_pump_on.2.2.2.2 7 ⟨true, true⟩⟩

/-- Claim C5: inserting into the schedule store never fails — the entry is
written at the slot named by the cursor and the cursor advances to
`(cursor+1) mod 5`; inserting six entries one at a time into the empty
store leaves the last five present in insertion order by slot index
`(k mod 5)` and the first-inserted entry absent (when it differs from the
later five). -/
theorem insertCron_eviction (e0 e1 e2 e3 e4 e5 : cron_t)
    (h1 : e0 ≠ e1) (h2 : e0 ≠ e2) (h3 : e0 ≠ e3) (h4 : e0 ≠ e4)
    (h5 : e0 ≠ e5) :
    (∀ (st : EvalState) (e : cron_t),
      st.next_cron_spec < st.cron_specs.length →
        (insertCron st e).cron_specs[st.next_cron_spec]? = some e ∧
        (insertCron st e).next_cron_spec
          = (st.next_cron_spec + 1) % MAX_CRON_SPECS) ∧
    List.foldl insertCron initialEvalState [e0, e1, e2, e3, e4, e5]
      = ⟨[e5, e1, e2, e3, e4], 1⟩ ∧
    e0 ∉ (List.foldl insertCron initialEvalState
      [e0, e1, e2, e3, e4, e5]).cron_specs := by
  have hfold : List.foldl insertCron initialEvalState [e0, e1, e2, e3, e4, e5]
      = ⟨[e5, e1, e2, e3, e4], 1⟩ := by
    show insertCron (insertCron (insertCron (insertCron (insertCron
      (insertCron initialEvalState e0) e1) e2) e3) e4) e5 = _
    simp [insertCron, initialEvalState, MAX_CRON_SPECS, List.replicate]
  refine ⟨?_, hfold, ?_⟩
  · intro st e hlt
    constructor
    · simp [insertCron, List.getElem?_set, hlt]
    · rfl
  · rw [hfold]
    simp [h1, h2, h3, h4, h5]

/-- Witness for C5 at six concrete, pairwise-distinguishable entries. -/
theorem insertCron_eviction_witness :
    List.foldl insertCron initialEvalState
      [⟨0, 0, 0, 0, 0, 0, 0, 0⟩, ⟨1, 0, 0, 0, 0, 0, 0, 0⟩,
       ⟨2, 0, 0, 0, 0, 0, 0, 0⟩, ⟨3, 0, 0, 0, 0, 0, 0, 0⟩,
       ⟨4, 0, 0, 0, 0, 0, 0, 0⟩, ⟨5, 0, 0, 0, 0, 0, 0, 0⟩]
      = ⟨[⟨5, 0, 0, 0, 0, 0, 0, 0⟩, ⟨1, 0, 0, 0, 0, 0, 0, 0⟩,
          ⟨2, 0, 0, 0, 0, 0, 0, 0⟩, ⟨3, 0, 0, 0, 0, 0, 0, 0⟩,
          ⟨4, 0, 0, 0, 0, 0, 0, 0⟩], 1⟩ ∧
    (⟨0, 0, 0, 0, 0, 0, 0, 0⟩ : cron_t) ∉
      (List.foldl insertCron initialEvalState
        [⟨0, 0, 0, 0, 0, 0, 0, 0⟩, ⟨1, 0, 0, 0, 0, 0, 0, 0⟩,
         ⟨2, 0, 0, 0, 0, 0, 0, 0⟩, ⟨3, 0, 0, 0, 0, 0, 0, 0⟩,
         ⟨4, 0, 0, 0, 0, 0, 0, 0⟩, ⟨5, 0, 0, 0, 0, 0, 0, 0⟩]).cron_specs :=
  ⟨(insertCron_eviction _ _ _ _ _ _ (by decide) (by decide) (by decide)
      (by decide) (by decide)).2.1,
   (insertCron_eviction _ _ _ _ _ _ (by decide) (by decide) (by decide)
      (by decide) (by decide)).2.2⟩

/-- Claim C7: each evaluator tick attempts exactly one non-blocking receive
from the schedule-update channel — the remaining channel content is the
tail of the pending list; when an entry is pending it is inserted into the
store before the scan, and when none is pending the update step leaves the
store untouched (only the scan runs). -/
theorem tick_applies_at_most_one_update (cap : Nat) (p : Int) (now : Tm)
    (st : EvalState) (us : List cron_t) (q : List event_t) :
    (pumpTimerCb cap p now st us q).2.1 = us.tail ∧
    (us = [] →
      (pumpTimerCb cap p now st us q).1.cron_specs
        = (scanQ cap p now st.cron_specs q).1 ∧
      (pumpTimerCb cap p now st us q).1.next_cron_spec
        = st.next_cron_spec) ∧
    (∀ u rest, us = u :: rest →
      (pumpTimerCb cap p now st us q).1.cron_specs
        = (scanQ cap p now (insertCron st u).cron_specs q).1 ∧
      (pumpTimerCb cap p now st us q).1.next_cron_spec
        = (insertCron st u).next_cron_spec) := by
  cases us with
  | nil => simp [pumpTimerCb]
  | cons u rest =>
    refine ⟨rfl, by simp, ?_⟩
    intro u2 rest2 heq
    cases heq
    exact ⟨rfl, rfl⟩

/-- Witness for C7: a tick with one pending update consumes exactly that
update and advances the cursor as its insertion dictates. -/
theorem tick_applies_at_most_one_update_witness :
    (pumpTimerCb 5 10 ⟨124, 0, 15, 3, 0⟩ initialEvalState [zeroCron]
      []).2.1 = [] ∧
    (pumpTimerCb 5 10 ⟨124, 0, 15, 3, 0⟩ initialEvalState [zeroCron]
      []).1.next_cron_spec
      = (insertCron initialEvalState zeroCron).next_cron_spec :=
  ⟨(tick_applies_at_most_one_update 5 10 ⟨124, 0, 15, 3, 0⟩
      initialEvalState [zeroCron] []).1,
   ((tick_applies_at_most_one_update 5 10 ⟨124, 0, 15, 3, 0⟩
      initialEvalState [zeroCron] []).2.2 zeroCron [] rfl).2⟩

/-- Claim C2 (amended): a slot matches if and only if its hour equals the
current hour, its minute equals the current minute, and its `last_ran_day`
field differs from the current day of the month — the code compares only
`tm_mday`, not the full calendar date; every matching slot fires
independently with its own message, and when the queue has room the scan
enqueues exactly the matching slots' messages in slot order. -/
theorem scan_match_iff (p : Int) (now : Tm) :
    (∀ c : cron_t, ((fireOne p now c).2).isSome ↔
      (now.tm_hour = c.hour ∧ now.tm_min = c.minute ∧
        c.last_ran_day ≠ now.tm_mday)) ∧
    (∀ c : cron_t,
      now.tm_hour = c.hour → now.tm_min = c.minute →
      c.last_ran_day ≠ now.tm_mday →
      (fireOne p now c).2 = some (mkMsg p c)) ∧
    (∀ (cap : Nat) (specs : List cron_t) (q : List event_t),
      q.length + (sentMsgs p now specs).length ≤ cap →
      (scanQ cap p now specs q).2 = q ++ sentMsgs p now specs) := by
  refine ⟨?_, ?_, fun cap specs q h => scanQ_snd cap p now specs q h⟩
  · intro c
    simp only [fireOne]
    split_ifs with hmatch hran <;> simp_all
  · intro c hh hm hd
    simp [fireOne, hh, hm, hd]

/-- Witness for C2 (amended) at a concrete entry and time. -/
theorem scan_match_iff_witness :
    (fireOne 10 ⟨124, 0, 15, 7, 30⟩ ⟨0, 1, 60, 7, 30, -1, -1, -1⟩).2
      = some (mkMsg 10 ⟨0, 1, 60, 7, 30, -1, -1, -1⟩) ∧
    (scanQ 8 10 ⟨124, 0, 15, 7, 30⟩ [⟨0, 1, 60, 7, 30, -1, -1, -1⟩] []).2
      = [] ++ sentMsgs 10 ⟨124, 0, 15, 7, 30⟩
          [⟨0, 1, 60, 7, 30, -1, -1, -1⟩] :=
  ⟨(scan_match_iff 10 ⟨124, 0, 15, 7, 30⟩).2.1 ⟨0, 1, 60, 7, 30, -1, -1, -1⟩
      (by decide) (by decide) (by decide),
   (scan_match_iff 10 ⟨124, 0, 15, 7, 30⟩).2.2 8
      [⟨0, 1, 60, 7, 30, -1, -1, -1⟩] [] (by decide)⟩

/-- Counterexample to C2 as stated: the entry fires on January 15 and
records only the day of the month; on February 15 — a different calendar
day, so the entry's last-run date is not the current calendar day — the
hour and minute match, yet the slot does not match under the code's test,
because `last_ran_day` equals `tm_mday`. -/
theorem scan_match_full_date_counterexample :
    (fireOne 10 ⟨124, 0, 15, 7, 30⟩
      ⟨0, 1, 60, 7, 30, -1, -1, -1⟩).2.isSome = true ∧
    Tm.calendarDay ⟨124, 0, 15, 7, 30⟩
      ≠ Tm.calendarDay ⟨124, 1, 15, 7, 30⟩ ∧
    (⟨124, 1, 15, 7, 30⟩ : Tm).tm_hour
      = ((fireOne 10 ⟨124, 0, 15, 7, 30⟩
          ⟨0, 1, 60, 7, 30, -1, -1, -1⟩).1).hour ∧
    (⟨124, 1, 15, 7, 30⟩ : Tm).tm_min
      = ((fireOne 10 ⟨124, 0, 15, 7, 30⟩
          ⟨0, 1, 60, 7, 30, -1, -1, -1⟩).1).minute ∧
    (fireOne 10 ⟨124, 1, 15, 7, 30⟩
      (fireOne 10 ⟨124, 0, 15, 7, 30⟩
        ⟨0, 1, 60, 7, 30, -1, -1, -1⟩).1).2 = none := by decide

/-- Claim C1 (amended): on an evaluator tick, a stored entry whose hour and
minute equal the current time and whose `last_ran_day` differs from the
current day of the month produces exactly one RunRequest message, and its
last-ran fields are set to the current day-of-month, hour and minute; the
store resulting from a tick does not depend on the pump-events queue or its
capacity, so a dropped send still counts as having run; and a later tick at
the same day-of-month, hour and minute produces nothing for that entry and
leaves it unchanged. -/
theorem cron_fires_at_most_once_per_day (p : Int) (now now2 : Tm)
    (c : cron_t)
    (hh : now.tm_hour = c.hour) (hm : now.tm_min = c.minute)
    (hd : c.last_ran_day ≠ now.tm_mday)
    (h2d : now2.tm_mday = now.tm_mday) (h2h : now2.tm_hour = now.tm_hour)
    (h2m : now2.tm_min = now.tm_min) :
    (fireOne p now c).2 = some (mkMsg p c) ∧
    (fireOne p now c).1.last_ran_day = now.tm_mday ∧
    (fireOne p now c).1.last_ran_hour = now.tm_hour ∧
    (fireOne p now c).1.last_ran_minute = now.tm_min ∧
    (fireOne p now2 (fireOne p now c).1).2 = none ∧
    (fireOne p now2 (fireOne p now c).1).1 = (fireOne p now c).1 ∧
    (∀ (cap cap2 : Nat) (q q2 : List event_t) (st : EvalState)
      (us : List cron_t),
      (pumpTimerCb cap p now st us q).1
        = (pumpTimerCb cap2 p now st us q2).1) := by
  have hfire : fireOne p now c
      = ({ c with last_ran_day := now.tm_mday,
                  last_ran_hour := now.tm_hour,
                  last_ran_minute := now.tm_min }, some (mkMsg p c)) := by
    simp [fireOne, hh, hm, hd]
  have hfire2 : fireOne p now2 (fireOne p now c).1
      = ((fireOne p now c).1, none) := by
    rw [hfire]
    simp only [fireOne]
    rw [if_pos, if_pos]
    · exact h2d.symm
    · exact ⟨h2h.trans hh, h2m.trans hm⟩
  refine ⟨by rw [hfire], by rw [hfire], by rw [hfire], by rw [hfire],
    by rw [hfire2], by rw [hfire2], ?_⟩
  intro cap cap2 q q2 st us
  cases us <;> simp [pumpTimerCb, scanQ_fst]

/-- Witness for C1 (amended): a concrete entry fires at 07:30 and a second
evaluation at the same day-of-month and minute yields nothing. -/
theorem cron_fires_at_most_once_per_day_witness :
    (fireOne 10 ⟨124, 0, 15, 7, 30⟩ ⟨0, 1, 60, 7, 30, -1, -1, -1⟩).2
      = some (mkMsg 10 ⟨0, 1, 60, 7, 30, -1, -1, -1⟩) ∧
    (fireOne 10 ⟨124, 0, 15, 7, 30⟩
      (fireOne 10 ⟨124, 0, 15, 7, 30⟩
        ⟨0, 1, 60, 7, 30, -1, -1, -1⟩).1).2 = none :=
  ⟨(cron_fires_at_most_once_per_day 10 ⟨124, 0, 15, 7, 30⟩
      ⟨124, 0, 15, 7, 30⟩ ⟨0, 1, 60, 7, 30, -1, -1, -1⟩
      (by decide) (by decide) (by decide) rfl rfl rfl).1,
   (cron_fires_at_most_once_per_day 10 ⟨124, 0, 15, 7, 30⟩
      ⟨124, 0, 15, 7, 30⟩ ⟨0, 1, 60, 7, 30, -1, -1, -1⟩
      (by decide) (by decide) (by decide) rfl rfl rfl).2.2.2.2.1⟩

/-- Counterexample to C1 as stated: a two-tick trace crossing a month
boundary. The entry fires on January 15 at 07:30; on February 15 at 07:30 —
a different calendar day, on which the entry has not yet run — the tick
enqueues no RunRequest for it, because the code deduplicates by day of the
month only. -/
theorem cron_calendar_day_counterexample :
    (pumpTimerCb 8 10 ⟨124, 0, 15, 7, 30⟩
      ⟨[⟨0, 1, 60, 7, 30, -1, -1, -1⟩, zeroCron, zeroCron, zeroCron,
        zeroCron], 1⟩ [] []).2.2.length = 1 ∧
    Tm.calendarDay ⟨124, 0, 15, 7, 30⟩
      ≠ Tm.calendarDay ⟨124, 1, 15, 7, 30⟩ ∧
    (pumpTimerCb 8 10 ⟨124, 1, 15, 7, 30⟩
      (pumpTimerCb 8 10 ⟨124, 0, 15, 7, 30⟩
        ⟨[⟨0, 1, 60, 7, 30, -1, -1, -1⟩, zeroCron, zeroCron, zeroCron,
          zeroCron], 1⟩ [] []).1 [] []).2.2 = [] := by decide

/-- `cJSON_IsNumber` holds exactly on number nodes. -/
theorem cJSON_IsNumber_eq_true (o : Option Json) :
    cJSON_IsNumber o = true ↔ ∃ n, o = some (Json.num n) := by
  cases o with
  | none => simp [cJSON_IsNumber]
  | some v => cases v <;> simp [cJSON_IsNumber]

/-- Claim C8: the immediate-run handler reaches `runPumps` only when the
parsed body is a JSON object whose `pump_1` and `pump_2` children are
numbers with values strictly greater than zero; whenever either value is
zero or negative, the handler leaves the pump-events queue unchanged. -/
theorem pumps_on_handler_validation (cap : Nat) (p : Int) (j : Option Json)
    (q : List event_t) :
    (∀ fields a b, j = some (Json.obj fields) →
      cJSON_GetObjectItemCaseSensitive fields "pump_1"
        = some (Json.num a) →
      cJSON_GetObjectItemCaseSensitive fields "pump_2"
        = some (Json.num b) →
      a ≤ 0 ∨ b ≤ 0 → pumps_on_handler cap p j q = q) ∧
    (pumps_on_handler cap p j q ≠ q →
      ∃ fields a b, j = some (Json.obj fields) ∧
        cJSON_GetObjectItemCaseSensitive fields "pump_1"
          = some (Json.num a) ∧
        cJSON_GetObjectItemCaseSensitive fields "pump_2"
          = some (Json.num b) ∧
        0 < a ∧ 0 < b) := by
  constructor
  · rintro fields a b rfl h1 h2 hle
    have hfalse : (decide (a > 0) && decide (b > 0)) = false := by
      rcases hle with h | h
      · simp [not_lt.mpr h]
      · simp [not_lt.mpr h]
    simp [pumps_on_handler, h1, h2, cJSON_IsNumber, valueint, hfalse]
  · intro hne
    cases j with
    | none => simp [pumps_on_handler] at hne
    | some json =>
      cases json with
      | obj fields =>
        by_cases hnum :
          (cJSON_IsNumber
              (cJSON_GetObjectItemCaseSensitive fields "pump_1") &&
            cJSON_IsNumber
              (cJSON_GetObjectItemCaseSensitive fields "pump_2")) = true
        · obtain ⟨hn1, hn2⟩ := Bool.and_eq_true_iff.mp hnum
          obtain ⟨a, ha⟩ := (cJSON_IsNumber_eq_true _).mp hn1
          obtain ⟨b, hb⟩ := (cJSON_IsNumber_eq_true _).mp hn2
          by_cases hpos :
            (decide (valueint (cJSON_GetObjectItemCaseSensitive fields
                "pump_1") > 0) &&
              decide (valueint (cJSON_GetObjectItemCaseSensitive fields
                "pump_2") > 0)) = true
          · obtain ⟨hp1, hp2⟩ := Bool.and_eq_true_iff.mp hpos
            refine ⟨fields, a, b, rfl, ha, hb, ?_, ?_⟩
            · have := of_decide_eq_true hp1
              rwa [ha] at this
            · have := of_decide_eq_true hp2
              rwa [hb] at this
          · exfalso
            apply hne
            simp only [pumps_on_handler, hnum, if_true]
            rw [if_neg]
            intro hcon
            exact hpos (by simpa using hcon)
        · exfalso
          apply hne
          simp [pumps_on_handler, hnum]
      | null => simp [pumps_on_handler] at hne
      | jbool b => simp [pumps_on_handler] at hne
      | num n => simp [pumps_on_handler] at hne
      | str s => simp [pumps_on_handler] at hne
      | arr l => simp [pumps_on_handler] at hne

/-- Witness for C8: a request with `pump_1 = 0` leaves the queue unchanged. -/
theorem pumps_on_handler_validation_witness :
    pumps_on_handler 5 10
      (some (Json.obj [("pump_1", Json.num 0), ("pump_2", Json.num 5)]))
      [⟨1, 2, 3⟩] = [⟨1, 2, 3⟩] :=
  (pumps_on_handler_validation 5 10
      (some (Json.obj [("pump_1", Json.num 0), ("pump_2", Json.num 5)]))
      [⟨1, 2, 3⟩]).1 _ 0 5 rfl rfl rfl (Or.inl (by decide))

/-- Claim C10: when validation fails in `parse_cron_data`, the function
returns the all-zero entry (zero fields, not the `-1` last-ran sentinels
written on success), and `add_cron_handler` sends whatever
`parse_cron_data` returned on the schedule-update channel whenever the
body parses as JSON at all. -/
theorem parse_cron_zero_on_failure (j : Json) (cap : Nat)
    (uq : List cron_t) :
    (cronGuard j = false → parse_cron_data j = zeroCron) ∧
    (cronGuard j = true →
      (parse_cron_data j).last_ran_day = -1 ∧
      (parse_cron_data j).last_ran_hour = -1 ∧
      (parse_cron_data j).last_ran_minute = -1) ∧
    zeroCron.pump_num = 0 ∧ zeroCron.hour = 0 ∧ zeroCron.minute = 0 ∧
    zeroCron.last_ran_day = 0 ∧
    (uq.length < cap →
      add_cron_handler cap (some j) uq = uq ++ [parse_cron_data j]) := by
  refine ⟨?_, ?_, rfl, rfl, rfl, rfl, ?_⟩
  · intro hguard
    cases j <;> simp_all [parse_cron_data]
  · intro hguard
    cases j <;> simp_all [parse_cron_data, cronGuard]
  · intro hlen
    simp [add_cron_handler, xQueueSendCron, hlen]

/-- Witness for C10: the empty JSON object fails validation, parses to the
all-zero entry, and is enqueued by the handler. -/
theorem parse_cron_zero_on_failure_witness :
    cronGuard (Json.obj []) = false ∧
    parse_cron_data (Json.obj []) = zeroCron ∧
    add_cron_handler 5 (some (Json.obj [])) []
      = [] ++ [parse_cron_data (Json.obj [])] :=
  ⟨rfl, (parse_cron_zero_on_failure (Json.obj []) 5 []).1 rfl,
   (parse_cron_zero_on_failure (Json.obj []) 5 []).2.2.2.2.2.2
     (by decide)⟩

/-- Claim C6 is violated by the code: the body `{}` parses as JSON, fails
`parse_cron_data` validation, yet the handler constructs the all-zero
CronEntry and sends it on the schedule-update channel, and the next
evaluator tick inserts it into the schedule store — so the core does
observe malformed submissions. -/
theorem malformed_cron_reaches_store :
    cronGuard (Json.obj []) = false ∧
    parse_cron_data (Json.obj []) = zeroCron ∧
    add_cron_handler 5 (some (Json.obj [])) [] = [zeroCron] ∧
    zeroCron ∈ (pumpTimerCb 5 10 ⟨124, 0, 15, 3, 0⟩
      ⟨List.replicate 5 ⟨9, 1, 30, 8, 0, -1, -1, -1⟩, 0⟩
      (add_cron_handler 5 (some (Json.obj [])) []) []).1.cron_specs := by
  decide

end PlantWater
